import Mathlib

/-!
Shallow embedding of the VITAR Sport analytics reporting pipeline
(`src/app.js`, `src/plan.js`, `src/unnamed/part_000`).

Monetary amounts and JS numbers are modelled as `ℚ`; record counts as `ℕ`.
A missing numeric field is modelled as `0` (the source reads every numeric
field through `x || 0`, which maps both `undefined` and `0` to `0`).
Missing string fields are `Option String` (`none` covers `undefined`; the
source's `s || default` also treats `""` as missing, which is modelled
explicitly where it matters).  JS objects with dynamic string keys are
modelled as association lists in insertion order (`lookupK` / `setKey`),
matching JS object key-iteration order.  Timestamps (`Date` values) are
milliseconds since epoch as `Int`.
-/

namespace Vitar

/-- VAT mode selector (`getVatMode` in `src/app.js`). -/
inductive VatMode
  | with_vat
  | without_vat
deriving DecidableEq, Repr

/-- A sales record (Order / Invoice / SponsoringInvoice) as used by
`src/app.js`. -/
structure Order where
  date : String := ""
  currency : String := "CZK"
  channel : String := ""
  salesperson : Option String := none
  company : Option String := none
  city : Option String := none
  payment_type : Option String := none
  total_czk : ℚ := 0
  total_eur : ℚ := 0
  total_czk_bez_dph : ℚ := 0
  total_eur_bez_dph : ℚ := 0
  is_paid : Bool := false
  date_due : Option Int := none
deriving DecidableEq, Repr

/-- A line item record as used by `src/app.js`. -/
structure Item where
  date : String := ""
  currency : String := "CZK"
  channel : String := ""
  salesperson : Option String := none
  product_code : Option String := none
  product_name : String := ""
  quantity : ℚ := 0
  total_czk : ℚ := 0
  total_eur : ℚ := 0
  total_czk_bez_dph : ℚ := 0
  total_eur_bez_dph : ℚ := 0
deriving DecidableEq, Repr

/-- `getPriceField(item, currency)` from `src/app.js` for sales records. -/
def getPriceField (vm : VatMode) (o : Order) (currency : String) : ℚ :=
  if currency = "EUR" then
    match vm with
    | .without_vat => o.total_eur_bez_dph
    | .with_vat => o.total_eur
  else
    match vm with
    | .without_vat => o.total_czk_bez_dph
    | .with_vat => o.total_czk

/-- `getPriceField(item, currency)` from `src/app.js` for line items. -/
def getItemPriceField (vm : VatMode) (it : Item) (currency : String) : ℚ :=
  if currency = "EUR" then
    match vm with
    | .without_vat => it.total_eur_bez_dph
    | .with_vat => it.total_eur
  else
    match vm with
    | .without_vat => it.total_czk_bez_dph
    | .with_vat => it.total_czk

/-- JS `String.prototype.includes`. -/
def strIncludes (s sub : String) : Bool :=
  decide (sub.data <:+: s.data)

/-- The filter control values read from the DOM by `getFilteredOrders` /
`getFilteredItems` (`"all"` means no constraint). -/
structure Criteria where
  month : String := "all"
  market : String := "all"
  channel : String := "all"
  salesperson : String := "all"
  payment : String := "all"
  city : String := "all"
deriving DecidableEq, Repr

/-- The record predicate of `getFilteredOrders` (`src/app.js` lines 157-203). -/
def orderMatches (c : Criteria) (o : Order) : Bool :=
  if c.month ≠ "all" ∧ o.date.take 7 ≠ c.month then false
  else if c.market ≠ "all" ∧
      ((c.market = "CZ" ∧ o.currency = "EUR") ∨ (c.market = "SK" ∧ o.currency ≠ "EUR")) then false
  else if c.channel ≠ "all" ∧
      ((c.channel = "ESHOP_ENERVIT" ∧ strIncludes o.channel "ENERVIT" = false) ∨
       (c.channel = "ESHOP_ROYALBAY" ∧ strIncludes o.channel "ROYALBAY" = false) ∨
       (c.channel = "B2B" ∧ o.channel ≠ "B2B")) then false
  else if c.salesperson ≠ "all" ∧ o.salesperson ≠ some c.salesperson then false
  else if c.payment ≠ "all" ∧ o.payment_type ≠ some c.payment then false
  else if c.city ≠ "all" ∧ o.city ≠ some c.city then false
  else true

/-- The line-item predicate of `getFilteredItems` (`src/app.js` lines 118-154):
same month/market/channel/salesperson tests, no payment or city test. -/
def itemMatches (c : Criteria) (it : Item) : Bool :=
  if c.month ≠ "all" ∧ it.date.take 7 ≠ c.month then false
  else if c.market ≠ "all" ∧
      ((c.market = "CZ" ∧ it.currency = "EUR") ∨ (c.market = "SK" ∧ it.currency ≠ "EUR")) then false
  else if c.channel ≠ "all" ∧
      ((c.channel = "ESHOP_ENERVIT" ∧ strIncludes it.channel "ENERVIT" = false) ∨
       (c.channel = "ESHOP_ROYALBAY" ∧ strIncludes it.channel "ROYALBAY" = false) ∨
       (c.channel = "B2B" ∧ it.channel ≠ "B2B")) then false
  else if c.salesperson ≠ "all" ∧ it.salesperson ≠ some c.salesperson then false
  else true

/-- `getFilteredOrders` (`src/app.js`). -/
def getFilteredOrders (c : Criteria) (data : List Order) : List Order :=
  data.filter (orderMatches c)

/-- `getFilteredItems` (`src/app.js`). -/
def getFilteredItems (c : Criteria) (items : List Item) : List Item :=
  items.filter (itemMatches c)

/-- `getDaysOverdue(invoice)` from `src/app.js` lines 1035-1045.
`today` and `date_due` are millisecond timestamps; `1000*60*60*24 = 86400000`
milliseconds per day. -/
def getDaysOverdue (today : Int) (inv : Order) : Int :=
  if inv.is_paid then 0
  else
    match inv.date_due with
    | none => 0
    | some dueDate =>
      let diffTime : Int := today - dueDate
      let diffDays : Int := ⌈(diffTime : ℚ) / (1000 * 60 * 60 * 24)⌉
      if diffDays > 0 then diffDays else 0

/-- `getOverdueCategory(daysOverdue)` from `src/app.js` lines 1048-1054. -/
def getOverdueCategory (daysOverdue : Int) : String :=
  if daysOverdue = 0 then "ok"
  else if daysOverdue ≤ 15 then "warning"
  else if daysOverdue ≤ 30 then "danger"
  else if daysOverdue ≤ 90 then "danger"
  else "critical"

/-- `getStockStatus(daysRemaining)` from `src/unnamed/part_000` lines 1258-1264.
`days_remaining` is a JS number (a ratio of sales figures), hence `ℚ`. -/
def getStockStatus (daysRemaining : ℚ) : String :=
  if daysRemaining = -1 then "no_sales"
  else if daysRemaining < 30 then "critical"
  else if daysRemaining < 60 then "low"
  else if daysRemaining ≤ 120 then "ok"
  else "high"

section AssocList

variable {α β : Type*} {M : Type*}

/-- Association-list lookup (a JS object property read). -/
def lookupK : List (String × α) → String → Option α
  | [], _ => none
  | (k', v) :: rest, k => if k' = k then some v else lookupK rest k

/-- Association-list lookup with a default (JS `obj[k] || d`). -/
def lookupKD (l : List (String × α)) (k : String) (d : α) : α :=
  (lookupK l k).getD d

/-- A JS object property write: overwrite the existing key in place, or
append a new key at the end (JS objects iterate string keys in insertion
order). -/
def setKey : List (String × α) → String → α → List (String × α)
  | [], k, v => [(k, v)]
  | (k', v') :: rest, k, v =>
    if k' = k then (k, v) :: rest else (k', v') :: setKey rest k v

/-- Sum of a function of the values of an association list. -/
def sumBy [AddCommMonoid M] (f : α → M) (l : List (String × α)) : M :=
  (l.map fun p => f p.2).sum

/-- The keys of an association list, in order. -/
def keysOf (l : List (String × α)) : List String :=
  l.map Prod.fst

/-- One step of a JS grouping loop:
`if (!obj[k]) obj[k] = init(rec); obj[k] = upd(obj[k], rec)`. -/
def applyRec (key : β → String) (upd : α → β → α) (init : β → α)
    (acc : List (String × α)) (b : β) : List (String × α) :=
  setKey acc (key b) (upd (lookupKD acc (key b) (init b)) b)

/-- A JS grouping loop over a record list, starting from an empty object. -/
def groupFold (key : β → String) (upd : α → β → α) (init : β → α) (l : List β) :
    List (String × α) :=
  l.foldl (applyRec key upd init) []

end AssocList

/-- One channel/currency bucket of `aggregateByMonth`.  `amount` models the
source's `.czk` field on CZ buckets and `.eur` field on SK buckets. -/
structure Bucket where
  amount : ℚ := 0
  count : Nat := 0
deriving DecidableEq, Repr

/-- The per-month accumulator object of `aggregateByMonth`
(`src/app.js` lines 261-307). -/
structure MonthTotals where
  ESHOP_ENERVIT_CZ : Bucket := {}
  ESHOP_ENERVIT_SK : Bucket := {}
  ESHOP_ROYALBAY_CZ : Bucket := {}
  ESHOP_ROYALBAY_SK : Bucket := {}
  B2B_CZ : Bucket := {}
  B2B_SK : Bucket := {}
  totalCount : Nat := 0
deriving DecidableEq, Repr

/-- Add an amount to a bucket and bump its count. -/
def addBucketAmount (b : Bucket) (a : ℚ) : Bucket :=
  { amount := b.amount + a, count := b.count + 1 }

/-- The loop body of `aggregateByMonth`: bump `totalCount`, then dispatch on
the exact channel string (B2B splits by currency). -/
def addOrderToMonth (vm : VatMode) (m : MonthTotals) (o : Order) : MonthTotals :=
  let m := { m with totalCount := m.totalCount + 1 }
  let czkAmount := getPriceField vm o "CZK"
  let eurAmount := getPriceField vm o "EUR"
  if o.channel = "ESHOP_ENERVIT_CZ" then
    { m with ESHOP_ENERVIT_CZ := addBucketAmount m.ESHOP_ENERVIT_CZ czkAmount }
  else if o.channel = "ESHOP_ENERVIT_SK" then
    { m with ESHOP_ENERVIT_SK := addBucketAmount m.ESHOP_ENERVIT_SK eurAmount }
  else if o.channel = "ESHOP_ROYALBAY_CZ" then
    { m with ESHOP_ROYALBAY_CZ := addBucketAmount m.ESHOP_ROYALBAY_CZ czkAmount }
  else if o.channel = "ESHOP_ROYALBAY_SK" then
    { m with ESHOP_ROYALBAY_SK := addBucketAmount m.ESHOP_ROYALBAY_SK eurAmount }
  else if o.channel = "B2B" then
    if o.currency = "EUR" then
      { m with B2B_SK := addBucketAmount m.B2B_SK eurAmount }
    else
      { m with B2B_CZ := addBucketAmount m.B2B_CZ czkAmount }
  else m

/-- `aggregateByMonth(orders)` (`src/app.js` lines 261-307), keyed by the
"YYYY-MM" prefix of the date. -/
def aggregateByMonth (vm : VatMode) (orders : List Order) :
    List (String × MonthTotals) :=
  groupFold (fun o => o.date.take 7) (addOrderToMonth vm) (fun _ => {}) orders

/-- The result of `calculateSummary` (`src/app.js` lines 206-229). -/
structure Summary where
  totalCZK : ℚ
  totalEUR : ℚ
  totalOrders : Nat
  b2bCZK : ℚ
  b2bEUR : ℚ
deriving DecidableEq, Repr

/-- The loop body of `calculateSummary`. -/
def addOrderToSummary (vm : VatMode) (s : Summary) (o : Order) : Summary :=
  let eurAmount := getPriceField vm o "EUR"
  let czkAmount := getPriceField vm o "CZK"
  if o.currency = "EUR" then
    { s with totalEUR := s.totalEUR + eurAmount,
             b2bEUR := if o.channel = "B2B" then s.b2bEUR + eurAmount else s.b2bEUR }
  else
    { s with totalCZK := s.totalCZK + czkAmount,
             b2bCZK := if o.channel = "B2B" then s.b2bCZK + czkAmount else s.b2bCZK }

/-- `calculateSummary(orders)` (`src/app.js` lines 206-229). -/
def calculateSummary (vm : VatMode) (orders : List Order) : Summary :=
  orders.foldl (addOrderToSummary vm)
    { totalCZK := 0, totalEUR := 0, totalOrders := orders.length, b2bCZK := 0, b2bEUR := 0 }

/-- Total of the three CZK buckets of a month
(`ESHOP_ENERVIT_CZ.czk + ESHOP_ROYALBAY_CZ.czk + B2B_CZ.czk`). -/
def czkOf (m : MonthTotals) : ℚ :=
  m.ESHOP_ENERVIT_CZ.amount + m.ESHOP_ROYALBAY_CZ.amount + m.B2B_CZ.amount

/-- Total of the three EUR buckets of a month
(`ESHOP_ENERVIT_SK.eur + ESHOP_ROYALBAY_SK.eur + B2B_SK.eur`). -/
def eurOf (m : MonthTotals) : ℚ :=
  m.ESHOP_ENERVIT_SK.amount + m.ESHOP_ROYALBAY_SK.amount + m.B2B_SK.amount

/-- The `totalCount` field of a month. -/
def countOf (m : MonthTotals) : Nat :=
  m.totalCount

/-- Sum of the `count` fields of the six channel/currency buckets. -/
def bucketCountSum (m : MonthTotals) : Nat :=
  m.ESHOP_ENERVIT_CZ.count + m.ESHOP_ENERVIT_SK.count + m.ESHOP_ROYALBAY_CZ.count +
    m.ESHOP_ROYALBAY_SK.count + m.B2B_CZ.count + m.B2B_SK.count

/-- Amount a single order contributes to the CZK buckets of its month. -/
def czkContrib (vm : VatMode) (o : Order) : ℚ :=
  if o.channel = "ESHOP_ENERVIT_CZ" then getPriceField vm o "CZK"
  else if o.channel = "ESHOP_ENERVIT_SK" then 0
  else if o.channel = "ESHOP_ROYALBAY_CZ" then getPriceField vm o "CZK"
  else if o.channel = "ESHOP_ROYALBAY_SK" then 0
  else if o.channel = "B2B" then
    (if o.currency = "EUR" then 0 else getPriceField vm o "CZK")
  else 0

/-- Amount a single order contributes to the EUR buckets of its month. -/
def eurContrib (vm : VatMode) (o : Order) : ℚ :=
  if o.channel = "ESHOP_ENERVIT_CZ" then 0
  else if o.channel = "ESHOP_ENERVIT_SK" then getPriceField vm o "EUR"
  else if o.channel = "ESHOP_ROYALBAY_CZ" then 0
  else if o.channel = "ESHOP_ROYALBAY_SK" then getPriceField vm o "EUR"
  else if o.channel = "B2B" then
    (if o.currency = "EUR" then getPriceField vm o "EUR" else 0)
  else 0

/-- Whether an order's channel is one of the five values `aggregateByMonth`
buckets (everything else only counts into `totalCount`). -/
def recognizedChannel (o : Order) : Bool :=
  decide (o.channel = "ESHOP_ENERVIT_CZ" ∨ o.channel = "ESHOP_ENERVIT_SK" ∨
    o.channel = "ESHOP_ROYALBAY_CZ" ∨ o.channel = "ESHOP_ROYALBAY_SK" ∨ o.channel = "B2B")

/-- An order whose channel suffix agrees with its currency: EUR orders sit in
SK channels (or B2B), non-EUR orders in CZ channels (or B2B). -/
def channelCurrencyConsistent (o : Order) : Prop :=
  (o.currency = "EUR" →
    o.channel = "ESHOP_ENERVIT_SK" ∨ o.channel = "ESHOP_ROYALBAY_SK" ∨ o.channel = "B2B") ∧
  (o.currency ≠ "EUR" →
    o.channel = "ESHOP_ENERVIT_CZ" ∨ o.channel = "ESHOP_ROYALBAY_CZ" ∨ o.channel = "B2B")

/-- An order in a channel `aggregateByMonth` does not bucket: contributes to
`calculateSummary.totalCZK` but to no CZK bucket. -/
def strayOrder : Order :=
  { date := "2025-01-15", currency := "CZK", channel := "OTHER", total_czk := 100 }

/-- The per-month accumulator object of `aggregateB2BBySalesperson`
(`src/app.js` lines 337-360).  The source object holds the four roster keys
plus dynamically added salesperson keys, and a `total` key; the salesperson
keys are modelled as `entries`, `total` separately. -/
structure SPMonth where
  entries : List (String × ℚ)
  total : ℚ
deriving DecidableEq, Repr

/-- The fresh month object: roster of known salespeople at zero. -/
def initSPMonth : SPMonth :=
  { entries := [("Karolina", 0), ("Jirka", 0), ("Štěpán", 0), ("VITAR Sport", 0)],
    total := 0 }

/-- `order.salesperson || 'VITAR Sport'` (JS `||` treats `""` as missing). -/
def spName (o : Order) : String :=
  match o.salesperson with
  | none => "VITAR Sport"
  | some s => if s = "" then "VITAR Sport" else s

/-- The loop body of `aggregateB2BBySalesperson`:
`months[month][sp] = (months[month][sp] || 0) + czkAmount; months[month].total += czkAmount`. -/
def addOrderToSP (vm : VatMode) (m : SPMonth) (o : Order) : SPMonth :=
  let sp := spName o
  let czkAmount := getPriceField vm o "CZK"
  { entries := setKey m.entries sp (lookupKD m.entries sp 0 + czkAmount),
    total := m.total + czkAmount }

/-- `aggregateB2BBySalesperson(orders)` (`src/app.js` lines 337-360):
restricted to B2B orders with currency other than EUR. -/
def aggregateB2BBySalesperson (vm : VatMode) (orders : List Order) :
    List (String × SPMonth) :=
  let b2bOrders := orders.filter fun o => decide (o.channel = "B2B" ∧ o.currency ≠ "EUR")
  groupFold (fun o => o.date.take 7) (addOrderToSP vm) (fun _ => initSPMonth) b2bOrders

/-- Sum of all salesperson entries of a month object. -/
def entrySum (l : List (String × ℚ)) : ℚ :=
  sumBy id l

/-- One month's row of the plan table (`src/plan.js`). -/
structure PlanTarget where
  celkomCZ : ℚ := 0
  celkomSK : ℚ := 0
  karolina : ℚ := 0
  jirkaCZ : ℚ := 0
  jirkaSK : ℚ := 0
  stepanCZ : ℚ := 0
  stepanSK : ℚ := 0
deriving DecidableEq, Repr

/-- `planData` from `src/plan.js` (keys appear in ascending month order, so
iterating this list matches the source's `Object.keys(planData).sort()`). -/
def planData : List (String × PlanTarget) :=
  [("2025-01", { celkomCZ := 1405070, celkomSK := 8177, karolina := 650319,
                 jirkaCZ := 375651, jirkaSK := 0, stepanCZ := 68541, stepanSK := 0 }),
   ("2025-02", { celkomCZ := 1446950, celkomSK := 9195, karolina := 750586,
                 jirkaCZ := 179301, jirkaSK := 0, stepanCZ := 66737, stepanSK := 0 }),
   ("2025-03", { celkomCZ := 2167710, celkomSK := 11659, karolina := 980483,
                 jirkaCZ := 388545, jirkaSK := 0, stepanCZ := 65797, stepanSK := 0 }),
   ("2025-04", { celkomCZ := 2785390, celkomSK := 16358, karolina := 1385623,
                 jirkaCZ := 306173, jirkaSK := 0, stepanCZ := 103550, stepanSK := 0 }),
   ("2025-05", { celkomCZ := 3028260, celkomSK := 17328, karolina := 1526069,
                 jirkaCZ := 294787, jirkaSK := 0, stepanCZ := 98682, stepanSK := 0 }),
   ("2025-06", { celkomCZ := 2571500, celkomSK := 9444, karolina := 1368469,
                 jirkaCZ := 308329, jirkaSK := 0, stepanCZ := 127686, stepanSK := 0 }),
   ("2025-07", { celkomCZ := 2524270, celkomSK := 15644, karolina := 998665,
                 jirkaCZ := 521693, jirkaSK := 0, stepanCZ := 54311, stepanSK := 0 }),
   ("2025-08", { celkomCZ := 2510780, celkomSK := 9854, karolina := 1305416,
                 jirkaCZ := 357990, jirkaSK := 0, stepanCZ := 73162, stepanSK := 0 }),
   ("2025-09", { celkomCZ := 1801010, celkomSK := 13533, karolina := 782762,
                 jirkaCZ := 284558, jirkaSK := 0, stepanCZ := 45257, stepanSK := 0 }),
   ("2025-10", { celkomCZ := 1481370, celkomSK := 8253, karolina := 520494,
                 jirkaCZ := 186634, jirkaSK := 0, stepanCZ := 15713, stepanSK := 0 }),
   ("2025-11", { celkomCZ := 1110500, celkomSK := 9079, karolina := 395608,
                 jirkaCZ := 196656, jirkaSK := 0, stepanCZ := 20374, stepanSK := 0 }),
   ("2025-12", { celkomCZ := 869609, celkomSK := 8140, karolina := 352605,
                 jirkaCZ := 217746, jirkaSK := 0, stepanCZ := 54738, stepanSK := 0 })]

/-- One row of the Plan vs Actual tables. -/
structure PlanRow where
  plan : ℚ
  actual : ℚ
  diff : ℚ
  percent : ℚ
deriving DecidableEq, Repr

/-- A per-month row of `updatePlanCZTable` (`src/app.js` lines 741-800):
`plan = planData[month]?.celkomCZ || 0`, `actual` is the sum of the three
CZK buckets of the month (0 when the month is absent),
`percent = plan > 0 ? actual / plan * 100 : 0`. -/
def planCZRow (vm : VatMode) (orders : List Order) (month : String) : PlanRow :=
  let monthlyData := aggregateByMonth vm orders
  let plan := ((lookupK planData month).map PlanTarget.celkomCZ).getD 0
  let actual :=
    match lookupK monthlyData month with
    | some d => d.ESHOP_ENERVIT_CZ.amount + d.ESHOP_ROYALBAY_CZ.amount + d.B2B_CZ.amount
    | none => 0
  { plan := plan, actual := actual, diff := actual - plan,
    percent := if plan > 0 then actual / plan * 100 else 0 }

/-- The months iterated by the plan tables (`Object.keys(planData).sort()`). -/
def planMonths : List String :=
  keysOf planData

/-- The CELKEM row of `updatePlanCZTable`: percent recomputed from the summed
plan and actual figures. -/
def planCZTotals (vm : VatMode) (orders : List Order) : PlanRow :=
  let totalPlan := (planMonths.map fun m => (planCZRow vm orders m).plan).sum
  let totalActual := (planMonths.map fun m => (planCZRow vm orders m).actual).sum
  { plan := totalPlan, actual := totalActual, diff := totalActual - totalPlan,
    percent := if totalPlan > 0 then totalActual / totalPlan * 100 else 0 }

/-- An order carrying a negative total (a credit note). -/
def negativeOrder : Order :=
  { date := "2025-01-15", currency := "CZK", channel := "ESHOP_ENERVIT_CZ",
    total_czk := -1000 }

/-- Karolina's fulfillment percent of `updatePlanB2BTable`
(`src/app.js` lines 865-936):
`karolinaPlan = planData[month]?.karolina || 0`,
`karolinaActual = (b2bData[month] || {}).Karolina || 0`,
`karolinaPercent = karolinaPlan > 0 ? karolinaActual / karolinaPlan * 100 : 0`. -/
def planB2BKarolinaPercent (vm : VatMode) (orders : List Order) (month : String) : ℚ :=
  let b2bData := aggregateB2BBySalesperson vm orders
  let karolinaPlan := ((lookupK planData month).map PlanTarget.karolina).getD 0
  let karolinaActual :=
    match lookupK b2bData month with
    | none => 0
    | some actual => lookupKD actual.entries "Karolina" 0
  if karolinaPlan > 0 then karolinaActual / karolinaPlan * 100 else 0

/-- The single order of the spec's example scenario. -/
def c7Order : Order :=
  { date := "2025-03-15", currency := "CZK", channel := "B2B",
    salesperson := some "Karolina", total_czk := 10000 }

/-- The per-customer accumulator of `updateTop10CustomersTable`
(`src/app.js` lines 662-697). -/
structure CustAgg where
  count : Nat := 0
  total : ℚ := 0
deriving DecidableEq, Repr

/-- `order.company || 'Neznámý'` (JS `||` treats `""` as missing). -/
def customerKey (o : Order) : String :=
  match o.company with
  | none => "Neznámý"
  | some c => if c = "" then "Neznámý" else c

/-- The loop body of the customer aggregation: bump count, add CZK price. -/
def addOrderToCustomer (vm : VatMode) (c : CustAgg) (o : Order) : CustAgg :=
  { count := c.count + 1, total := c.total + getPriceField vm o "CZK" }

/-- The customer grouping of `updateTop10CustomersTable`, in encounter order. -/
def groupCustomers (vm : VatMode) (orders : List Order) : List (String × CustAgg) :=
  groupFold customerKey (addOrderToCustomer vm) (fun _ => {}) orders

/-- JS `sort((a, b) => b.total - a.total)`: stable descending by total. -/
def custTotalDesc (a b : String × CustAgg) : Bool :=
  decide (b.2.total ≤ a.2.total)

/-- `updateTop10CustomersTable`'s ranking: stable descending sort by total,
then `.slice(0, 10)`. -/
def topCustomers (vm : VatMode) (orders : List Order) : List (String × CustAgg) :=
  ((groupCustomers vm orders).mergeSort custTotalDesc).take 10

/-- The per-product accumulator of `updateTop10ProductsTable`
(`src/app.js` lines 700-738); `code`/`name` come from the first item
encountered under the key. -/
structure ProdAgg where
  code : Option String := none
  name : String := ""
  quantity : ℚ := 0
  total : ℚ := 0
deriving DecidableEq, Repr

/-- `item.product_code || item.product_name` (JS `||` treats `""` as missing). -/
def productKey (it : Item) : String :=
  match it.product_code with
  | none => it.product_name
  | some c => if c = "" then it.product_name else c

/-- The fresh accumulator for a product key. -/
def initProdAgg (it : Item) : ProdAgg :=
  { code := it.product_code, name := it.product_name, quantity := 0, total := 0 }

/-- The loop body of the product aggregation: add quantity and CZK price. -/
def addItemToProduct (vm : VatMode) (p : ProdAgg) (it : Item) : ProdAgg :=
  { p with quantity := p.quantity + it.quantity,
           total := p.total + getItemPriceField vm it "CZK" }

/-- The product grouping of `updateTop10ProductsTable`, in encounter order. -/
def groupProducts (vm : VatMode) (items : List Item) : List (String × ProdAgg) :=
  groupFold productKey (addItemToProduct vm) initProdAgg items

/-- JS `sort((a, b) => b.total - a.total)` on products. -/
def prodTotalDesc (a b : String × ProdAgg) : Bool :=
  decide (b.2.total ≤ a.2.total)

/-- `updateTop10ProductsTable`'s ranking: stable descending sort by total,
then `.slice(0, 10)`. -/
def topProducts (vm : VatMode) (items : List Item) : List (String × ProdAgg) :=
  ((groupProducts vm items).mergeSort prodTotalDesc).take 10

/-- The month object `aggregateByMonth` builds for `[strayOrder]`. -/
def strayMonth : MonthTotals :=
  { totalCount := 1 }

/-- The month object `aggregateB2BBySalesperson` builds for `[c7Order]`. -/
def c7Month : SPMonth :=
  { entries := [("Karolina", 10000), ("Jirka", 0), ("Štěpán", 0), ("VITAR Sport", 0)],
    total := 10000 }

/-- Two orders for distinct companies with equal totals (a ranking tie). -/
def tieOrderA : Order :=
  { date := "2025-01-01", currency := "CZK", channel := "B2B",
    company := some "Alpha", total_czk := 100 }

/-- Second order of the tie pair. -/
def tieOrderB : Order :=
  { date := "2025-01-02", currency := "CZK", channel := "B2B",
    company := some "Beta", total_czk := 100 }

/-- Aggregate built for either tied customer. -/
def tieAgg : CustAgg :=
  { count := 1, total := 100 }

/-- Two line items for distinct products with equal totals (a ranking tie). -/
def tieItemA : Item :=
  { date := "2025-01-01", currency := "CZK", channel := "B2B",
    product_code := some "P1", product_name := "Prod One", quantity := 1,
    total_czk := 100 }

/-- Second item of the tie pair. -/
def tieItemB : Item :=
  { date := "2025-01-02", currency := "CZK", channel := "B2B",
    product_code := some "P2", product_name := "Prod Two", quantity := 1,
    total_czk := 100 }

/-- Aggregate built for the first tied product. -/
def tieProdA : ProdAgg :=
  { code := some "P1", name := "Prod One", quantity := 1, total := 100 }

/-- Aggregate built for the second tied product. -/
def tieProdB : ProdAgg :=
  { code := some "P2", name := "Prod Two", quantity := 1, total := 100 }

/-- A sample line item used to instantiate universally quantified theorems. -/
def sampleItem : Item :=
  { date := "2025-03-15", currency := "CZK", channel := "B2B",
    salesperson := some "Karolina", product_name := "Enervit Isotonic", quantity := 2,
    total_czk := 500 }

/-- A sample unpaid invoice due at epoch time 0. -/
def sampleDueInvoice : Order :=
  { date := "2025-01-01", currency := "CZK", channel := "B2B",
    is_paid := false, date_due := some 0, total_czk := 1000 }

end Vitar

namespace Vitar

open List

section AssocListLemmas

variable {α : Type*} {β : Type*} {M : Type*}

@[simp] theorem sumBy_nil [AddCommMonoid M] (f : α → M) : sumBy f ([] : List (String × α)) = 0 := by
  simp [sumBy]

@[simp] theorem sumBy_cons [AddCommMonoid M] (f : α → M) (p : String × α) (l : List (String × α)) :
    sumBy f (p :: l) = f p.2 + sumBy f l := by
  simp [sumBy]

theorem lookupK_setKey_self (l : List (String × α)) (k : String) (v : α) :
    lookupK (setKey l k v) k = some v := by
  induction l with
  | nil => simp [setKey, lookupK]
  | cons p rest ih =>
    obtain ⟨k', v'⟩ := p
    by_cases h : k' = k
    · simp [setKey, h, lookupK]
    · simp [setKey, h, lookupK, ih]

theorem lookupK_setKey_other (l : List (String × α)) (k m : String) (v : α)
    (h : m ≠ k) : lookupK (setKey l k v) m = lookupK l m := by
  have h' : k ≠ m := Ne.symm h
  induction l with
  | nil => simp [setKey, lookupK, h']
  | cons p rest ih =>
    obtain ⟨k', v'⟩ := p
    by_cases hk : k' = k
    · subst hk
      simp [setKey, lookupK, h']
    · simp [setKey, hk, lookupK, ih]

theorem sumBy_setKey [AddCommMonoid M] (f : α → M) (d : α) (hd : f d = 0)
    (l : List (String × α)) (k : String) (v : α) :
    sumBy f (setKey l k v) + f (lookupKD l k d) = sumBy f l + f v := by
  induction l with
  | nil => simp [setKey, lookupKD, lookupK, hd]
  | cons p rest ih =>
    obtain ⟨k', v'⟩ := p
    by_cases hk : k' = k
    · subst hk
      simp [setKey, lookupKD, lookupK]
      abel
    · simp only [lookupKD] at ih
      simp only [setKey, if_neg hk, sumBy_cons, lookupKD, lookupK, if_neg hk]
      rw [add_assoc, ih, add_assoc]

theorem keysOf_setKey (l : List (String × α)) (k : String) (v : α) :
    keysOf (setKey l k v) = if k ∈ keysOf l then keysOf l else keysOf l ++ [k] := by
  simp only [keysOf]
  induction l with
  | nil => simp [setKey]
  | cons p rest ih =>
    obtain ⟨k', v'⟩ := p
    by_cases hk : k' = k
    · subst hk
      simp [setKey]
    · have hk' : k ≠ k' := Ne.symm hk
      simp only [setKey, if_neg hk, List.map_cons, List.mem_cons, hk', false_or]
      rw [ih]
      by_cases hm : k ∈ List.map Prod.fst rest
      · rw [if_pos hm, if_pos hm]
      · rw [if_neg hm, if_neg hm, List.cons_append]

theorem nodup_keysOf_setKey (l : List (String × α)) (k : String) (v : α)
    (h : (keysOf l).Nodup) : (keysOf (setKey l k v)).Nodup := by
  rw [keysOf_setKey]
  split_ifs with hm
  · exact h
  · rw [← List.concat_eq_append]
    exact h.concat hm

theorem lookupK_eq_some_of_mem (l : List (String × α)) (k : String) (v : α)
    (hnd : (keysOf l).Nodup) (hm : (k, v) ∈ l) : lookupK l k = some v := by
  induction l with
  | nil => cases hm
  | cons p rest ih =>
    obtain ⟨k', v'⟩ := p
    simp only [keysOf, List.map_cons, List.nodup_cons] at hnd
    rcases List.mem_cons.mp hm with h | h
    · rw [Prod.mk.injEq] at h
      obtain ⟨h1, h2⟩ := h
      subst h1; subst h2
      simp [lookupK]
    · have hk : k' ≠ k := by
        intro hh
        subst hh
        exact hnd.1 (List.mem_map_of_mem Prod.fst h)
      simp only [lookupK, if_neg hk]
      exact ih hnd.2 h

theorem mem_of_lookupK_eq_some (l : List (String × α)) (k : String) (v : α)
    (h : lookupK l k = some v) : (k, v) ∈ l := by
  induction l with
  | nil => cases h
  | cons p rest ih =>
    obtain ⟨k', v'⟩ := p
    by_cases hk : k' = k
    · subst hk
      rw [lookupK, if_pos rfl] at h
      cases h
      exact List.mem_cons_self _ _
    · simp only [lookupK, if_neg hk] at h
      exact List.mem_cons_of_mem _ (ih h)

/-- Membership in the grouping result, looked at through `lookupK`, for
association lists with distinct keys. -/
theorem mem_iff_lookupK (l : List (String × α)) (k : String) (v : α)
    (hnd : (keysOf l).Nodup) : (k, v) ∈ l ↔ lookupK l k = some v :=
  ⟨lookupK_eq_some_of_mem l k v hnd, mem_of_lookupK_eq_some l k v⟩

theorem nodup_keysOf_foldl_applyRec (key : β → String) (upd : α → β → α) (init : β → α)
    (l : List β) (acc : List (String × α)) (h : (keysOf acc).Nodup) :
    (keysOf (l.foldl (applyRec key upd init) acc)).Nodup := by
  induction l generalizing acc with
  | nil => exact h
  | cons b rest ih =>
    rw [List.foldl_cons]
    exact ih _ (nodup_keysOf_setKey _ _ _ h)

theorem nodup_keysOf_groupFold (key : β → String) (upd : α → β → α) (init : β → α)
    (l : List β) : (keysOf (groupFold key upd init l)).Nodup :=
  nodup_keysOf_foldl_applyRec key upd init l [] (by simp [keysOf])

/-- Characterization of a JS grouping loop: looking up a key in the result
is a fold of the update over exactly the records carrying that key. -/
theorem lookupK_foldl_applyRec (key : β → String) (upd : α → β → α) (init : β → α)
    (l : List β) : ∀ (acc : List (String × α)) (m : String),
    lookupK (l.foldl (applyRec key upd init) acc) m =
      match l.filter (fun b => decide (key b = m)) with
      | [] => lookupK acc m
      | b :: bs => some ((b :: bs).foldl upd (lookupKD acc m (init b))) := by
  induction l with
  | nil => intro acc m; rfl
  | cons b rest ih =>
    intro acc m
    rw [List.foldl_cons, ih]
    by_cases hkey : key b = m
    · subst hkey
      simp only [List.filter_cons, decide_eq_true_eq, if_pos rfl, decide_True]
      have hsk : lookupK (applyRec key upd init acc b) (key b) =
          some (upd (lookupKD acc (key b) (init b)) b) := by
        unfold applyRec
        exact lookupK_setKey_self _ _ _
      cases hrest : rest.filter (fun x => decide (key x = key b)) with
      | nil =>
        simp only [hrest]
        rw [hsk]
        rfl
      | cons b' bs =>
        simp only [hrest]
        have : lookupKD (applyRec key upd init acc b) (key b) (init b') =
            upd (lookupKD acc (key b) (init b)) b := by
          unfold lookupKD
          rw [hsk]
          rfl
        rw [this]
        rfl
    · have hne : m ≠ key b := fun hh => hkey hh.symm
      have h1 : lookupK (applyRec key upd init acc b) m = lookupK acc m := by
        unfold applyRec
        exact lookupK_setKey_other _ _ _ _ hne
      have h2 : ∀ d, lookupKD (applyRec key upd init acc b) m d = lookupKD acc m d := by
        intro d
        unfold lookupKD
        rw [h1]
      simp only [List.filter_cons, hkey, decide_False, if_neg, h1, h2]
      cases hrest : rest.filter (fun x => decide (key x = m)) with
      | nil => simp [hrest, h1]
      | cons b' bs => simp [hrest, h2]

/-- `lookupK` on a `groupFold` result. -/
theorem lookupK_groupFold (key : β → String) (upd : α → β → α) (init : β → α)
    (l : List β) (m : String) :
    lookupK (groupFold key upd init l) m =
      match l.filter (fun b => decide (key b = m)) with
      | [] => none
      | b :: bs => some ((b :: bs).foldl upd (init b)) := by
  rw [groupFold, lookupK_foldl_applyRec]
  cases l.filter (fun b => decide (key b = m)) with
  | nil => rfl
  | cons b bs =>
    simp [lookupKD, lookupK]

/-- Any entry of a `groupFold` result is the fold of the update function
over the (nonempty) sublist of records carrying its key. -/
theorem mem_groupFold_eq_foldl (key : β → String) (upd : α → β → α) (init : β → α)
    (l : List β) (m : String) (t : α) (hm : (m, t) ∈ groupFold key upd init l) :
    ∃ b bs, l.filter (fun x => decide (key x = m)) = b :: bs ∧
      t = (b :: bs).foldl upd (init b) := by
  have hl := (mem_iff_lookupK _ _ _ (nodup_keysOf_groupFold key upd init l)).mp hm
  rw [lookupK_groupFold] at hl
  cases hrest : l.filter (fun x => decide (key x = m)) with
  | nil => rw [hrest] at hl; cases hl
  | cons b bs =>
    rw [hrest] at hl
    simp only [Option.some.injEq] at hl
    exact ⟨b, bs, rfl, hl.symm⟩

end AssocListLemmas

theorem totalCount_addOrderToMonth (vm : VatMode) (m : MonthTotals) (o : Order) :
    (addOrderToMonth vm m o).totalCount = m.totalCount + 1 := by
  unfold addOrderToMonth
  split_ifs <;> rfl

theorem bucketCountSum_addOrderToMonth (vm : VatMode) (m : MonthTotals) (o : Order) :
    bucketCountSum (addOrderToMonth vm m o) =
      bucketCountSum m + (if recognizedChannel o then 1 else 0) := by
  unfold addOrderToMonth bucketCountSum addBucketAmount recognizedChannel
  split_ifs <;> simp_all <;> omega

theorem totalCount_foldl (vm : VatMode) (l : List Order) (a : MonthTotals) :
    (l.foldl (addOrderToMonth vm) a).totalCount = a.totalCount + l.length := by
  induction l generalizing a with
  | nil => simp
  | cons o rest ih =>
    rw [List.foldl_cons, ih, totalCount_addOrderToMonth, List.length_cons]
    omega

theorem bucketCountSum_foldl (vm : VatMode) (l : List Order) (a : MonthTotals) :
    bucketCountSum (l.foldl (addOrderToMonth vm) a) =
      bucketCountSum a + l.countP recognizedChannel := by
  induction l generalizing a with
  | nil => simp
  | cons o rest ih =>
    rw [List.foldl_cons, ih, bucketCountSum_addOrderToMonth, List.countP_cons]
    by_cases h : recognizedChannel o <;> simp [h] <;> omega

theorem entrySum_addOrderToSP (vm : VatMode) (m : SPMonth) (o : Order)
    (h : entrySum m.entries = m.total) :
    entrySum (addOrderToSP vm m o).entries = (addOrderToSP vm m o).total := by
  unfold addOrderToSP
  unfold entrySum at h ⊢
  simp only
  have hs := sumBy_setKey (id : ℚ → ℚ) 0 rfl m.entries (spName o)
    (lookupKD m.entries (spName o) 0 + getPriceField vm o "CZK")
  simp only [id] at hs
  rw [h] at hs
  linarith [hs]

theorem entrySum_foldl_addOrderToSP (vm : VatMode) (l : List Order) (a : SPMonth)
    (h : entrySum a.entries = a.total) :
    entrySum ((l.foldl (addOrderToSP vm) a).entries) = (l.foldl (addOrderToSP vm) a).total := by
  induction l generalizing a with
  | nil => exact h
  | cons o rest ih => exact ih _ (entrySum_addOrderToSP vm a o h)

/-- Claim C9: in every month of `aggregateByMonth`, `totalCount` counts every
record of that month, the six bucket counts sum to at most `totalCount`, and
equality holds exactly when every record of that month has one of the five
recognized channel values. -/
theorem bucket_counts_vs_totalCount (vm : VatMode) (orders : List Order) (m : String)
    (t : MonthTotals) (hm : (m, t) ∈ aggregateByMonth vm orders) :
    t.totalCount = (orders.filter fun o => decide (o.date.take 7 = m)).length ∧
    bucketCountSum t ≤ t.totalCount ∧
    (bucketCountSum t = t.totalCount ↔
      ∀ o ∈ orders, o.date.take 7 = m → recognizedChannel o = true) := by
  obtain ⟨b, bs, hf, ht⟩ := mem_groupFold_eq_foldl _ _ _ _ _ _ hm
  subst ht
  rw [bucketCountSum_foldl, totalCount_foldl]
  have h0 : bucketCountSum ({} : MonthTotals) = 0 := rfl
  have h1 : ({} : MonthTotals).totalCount = 0 := rfl
  rw [h0, h1, Nat.zero_add, Nat.zero_add]
  refine ⟨by rw [hf], ?_, ?_⟩
  · exact List.countP_le_length _
  · rw [List.countP_eq_length]
    constructor
    · intro h o ho hmo
      have hob : o ∈ b :: bs := by
        rw [← hf]
        exact List.mem_filter.mpr ⟨ho, by simp [hmo]⟩
      exact h o hob
    · intro h o ho
      have hof : o ∈ orders.filter (fun x => decide (x.date.take 7 = m)) := by
        rw [hf]
        exact ho
      have := List.mem_filter.mp hof
      exact h o this.1 (by simpa using this.2)

/-- Witness for C9 at the single stray-channel order. -/
theorem bucket_counts_vs_totalCount_witness :
    strayMonth.totalCount =
      ([strayOrder].filter fun o => decide (o.date.take 7 = "2025-01")).length ∧
    bucketCountSum strayMonth ≤ strayMonth.totalCount ∧
    (bucketCountSum strayMonth = strayMonth.totalCount ↔
      ∀ o ∈ [strayOrder], o.date.take 7 = "2025-01" → recognizedChannel o = true) :=
  bucket_counts_vs_totalCount VatMode.with_vat [strayOrder] "2025-01" strayMonth (by decide)

/-- Claim C10: in every month of `aggregateB2BBySalesperson`, the `total` field
equals the sum of all per-salesperson entries (roster and dynamically added
keys alike). -/
theorem b2b_total_eq_entry_sum (vm : VatMode) (orders : List Order) (p : String × SPMonth)
    (hp : p ∈ aggregateB2BBySalesperson vm orders) :
    p.2.total = entrySum p.2.entries := by
  obtain ⟨m, t⟩ := p
  simp only [aggregateB2BBySalesperson] at hp
  obtain ⟨b, bs, hf, ht⟩ := mem_groupFold_eq_foldl _ _ _ _ _ _ hp
  subst ht
  exact (entrySum_foldl_addOrderToSP vm (b :: bs) initSPMonth
    (by norm_num [entrySum, initSPMonth, sumBy])).symm

theorem aggregateB2B_c7_eval :
    aggregateB2BBySalesperson VatMode.with_vat [c7Order] = [("2025-03", c7Month)] := by
  show [("2025-03",
    ({ entries := [("Karolina", (0 : ℚ) + 10000), ("Jirka", 0), ("Štěpán", 0),
                   ("VITAR Sport", 0)],
       total := (0 : ℚ) + 10000 } : SPMonth))] = _
  norm_num [c7Month]

/-- Witness for C10 at the example-scenario order. -/
theorem b2b_total_eq_entry_sum_witness :
    (("2025-03", c7Month) : String × SPMonth).2.total =
      entrySum (("2025-03", c7Month) : String × SPMonth).2.entries :=
  b2b_total_eq_entry_sum VatMode.with_vat [c7Order] ("2025-03", c7Month)
    (by rw [aggregateB2B_c7_eval]; exact List.mem_singleton.mpr rfl)

theorem sumBy_foldl_applyRec {α β : Type*} {M : Type*} [AddCancelCommMonoid M]
    (key : β → String) (upd : α → β → α) (init : β → α)
    (f : α → M) (d : β → M)
    (hinit : ∀ b, f (init b) = 0) (hupd : ∀ a b, f (upd a b) = f a + d b) :
    ∀ (l : List β) (acc : List (String × α)),
    sumBy f (l.foldl (applyRec key upd init) acc) = sumBy f acc + (l.map d).sum := by
  intro l
  induction l with
  | nil => intro acc; simp
  | cons b rest ih =>
    intro acc
    rw [List.foldl_cons, ih]
    have hs := sumBy_setKey f (init b) (hinit b) acc (key b)
      (upd (lookupKD acc (key b) (init b)) b)
    rw [hupd] at hs
    have h3 : sumBy f acc + (f (lookupKD acc (key b) (init b)) + d b) =
        (sumBy f acc + d b) + f (lookupKD acc (key b) (init b)) := by abel
    rw [h3] at hs
    have h2 : sumBy f (applyRec key upd init acc b) = sumBy f acc + d b := by
      unfold applyRec
      exact add_right_cancel hs
    rw [h2, List.map_cons, List.sum_cons]
    abel

theorem sumBy_groupFold {α β : Type*} {M : Type*} [AddCancelCommMonoid M]
    (key : β → String) (upd : α → β → α) (init : β → α)
    (f : α → M) (d : β → M)
    (hinit : ∀ b, f (init b) = 0) (hupd : ∀ a b, f (upd a b) = f a + d b)
    (l : List β) :
    sumBy f (groupFold key upd init l) = (l.map d).sum := by
  rw [groupFold, sumBy_foldl_applyRec key upd init f d hinit hupd]
  simp

theorem czkOf_addOrderToMonth (vm : VatMode) (m : MonthTotals) (o : Order) :
    czkOf (addOrderToMonth vm m o) = czkOf m + czkContrib vm o := by
  unfold addOrderToMonth czkOf czkContrib addBucketAmount
  split_ifs <;> simp_all <;> ring

theorem eurOf_addOrderToMonth (vm : VatMode) (m : MonthTotals) (o : Order) :
    eurOf (addOrderToMonth vm m o) = eurOf m + eurContrib vm o := by
  unfold addOrderToMonth eurOf eurContrib addBucketAmount
  split_ifs <;> simp_all <;> ring

theorem countOf_addOrderToMonth (vm : VatMode) (m : MonthTotals) (o : Order) :
    countOf (addOrderToMonth vm m o) = countOf m + 1 := by
  unfold countOf
  exact totalCount_addOrderToMonth vm m o

theorem totalCZK_foldl_summary (vm : VatMode) (l : List Order) (s : Summary) :
    (l.foldl (addOrderToSummary vm) s).totalCZK =
      s.totalCZK +
        (l.map fun o => if o.currency = "EUR" then 0 else getPriceField vm o "CZK").sum := by
  induction l generalizing s with
  | nil => simp
  | cons o rest ih =>
    rw [List.foldl_cons, ih]
    unfold addOrderToSummary
    by_cases h : o.currency = "EUR" <;> simp [h] <;> ring

theorem totalEUR_foldl_summary (vm : VatMode) (l : List Order) (s : Summary) :
    (l.foldl (addOrderToSummary vm) s).totalEUR =
      s.totalEUR +
        (l.map fun o => if o.currency = "EUR" then getPriceField vm o "EUR" else 0).sum := by
  induction l generalizing s with
  | nil => simp
  | cons o rest ih =>
    rw [List.foldl_cons, ih]
    unfold addOrderToSummary
    by_cases h : o.currency = "EUR" <;> simp [h] <;> ring

theorem totalOrders_foldl_summary (vm : VatMode) (l : List Order) (s : Summary) :
    (l.foldl (addOrderToSummary vm) s).totalOrders = s.totalOrders := by
  induction l generalizing s with
  | nil => rfl
  | cons o rest ih =>
    rw [List.foldl_cons, ih]
    unfold addOrderToSummary
    by_cases h : o.currency = "EUR" <;> simp [h]

/-- Claim C1 is false as stated over arbitrary collections: a record whose
channel is not one of the five bucketed values (or whose currency disagrees
with its channel suffix) enters `calculateSummary` but no channel bucket.
Here with a single CZK order in channel "OTHER" the CZK buckets sum to 0
while `totalCZK = 100`. -/
theorem aggregate_not_reconcile_stray :
    sumBy czkOf (aggregateByMonth VatMode.with_vat [strayOrder]) ≠
      (calculateSummary VatMode.with_vat [strayOrder]).totalCZK := by
  show ((0 : ℚ) + 0 + 0) + 0 ≠ (0 : ℚ) + 100
  norm_num

/-- Claim C1 (amended): the per-month order counts of `aggregateByMonth`
always sum to `calculateSummary`'s `totalOrders`; the CZK and EUR bucket
totals reconcile with `totalCZK`/`totalEUR` provided every record's channel
is one of the five bucketed values and agrees with its currency. -/
theorem aggregate_reconciles_summary (vm : VatMode) (orders : List Order) :
    sumBy countOf (aggregateByMonth vm orders) = (calculateSummary vm orders).totalOrders ∧
    ((∀ o ∈ orders, channelCurrencyConsistent o) →
      sumBy czkOf (aggregateByMonth vm orders) = (calculateSummary vm orders).totalCZK ∧
      sumBy eurOf (aggregateByMonth vm orders) = (calculateSummary vm orders).totalEUR) := by
  constructor
  · rw [aggregateByMonth,
      sumBy_groupFold (fun o : Order => o.date.take 7) (addOrderToMonth vm)
        (fun _ : Order => ({} : MonthTotals)) countOf (fun _ => 1) (fun _ => rfl)
        (countOf_addOrderToMonth vm),
      calculateSummary, totalOrders_foldl_summary]
    simp
  · intro h
    constructor
    · rw [aggregateByMonth,
        sumBy_groupFold (fun o : Order => o.date.take 7) (addOrderToMonth vm)
          (fun _ : Order => ({} : MonthTotals)) czkOf (czkContrib vm)
          (fun _ => by norm_num [czkOf]) (czkOf_addOrderToMonth vm),
        calculateSummary, totalCZK_foldl_summary]
      rw [zero_add]
      congr 1
      apply List.map_congr_left
      intro o ho
      obtain ⟨hsk, hcz⟩ := h o ho
      unfold czkContrib
      by_cases hc : o.currency = "EUR"
      · rcases hsk hc with h1 | h1 | h1 <;> rw [h1] <;> simp [hc]
      · rcases hcz hc with h1 | h1 | h1 <;> rw [h1] <;> simp [hc]
    · rw [aggregateByMonth,
        sumBy_groupFold (fun o : Order => o.date.take 7) (addOrderToMonth vm)
          (fun _ : Order => ({} : MonthTotals)) eurOf (eurContrib vm)
          (fun _ => by norm_num [eurOf]) (eurOf_addOrderToMonth vm),
        calculateSummary, totalEUR_foldl_summary]
      rw [zero_add]
      congr 1
      apply List.map_congr_left
      intro o ho
      obtain ⟨hsk, hcz⟩ := h o ho
      unfold eurContrib
      by_cases hc : o.currency = "EUR"
      · rcases hsk hc with h1 | h1 | h1 <;> rw [h1] <;> simp [hc]
      · rcases hcz hc with h1 | h1 | h1 <;> rw [h1] <;> simp [hc]

/-- Witness for C1 at a single consistent B2B CZK order. -/
theorem aggregate_reconciles_summary_witness :
    sumBy czkOf (aggregateByMonth VatMode.with_vat [c7Order]) =
      (calculateSummary VatMode.with_vat [c7Order]).totalCZK ∧
    sumBy eurOf (aggregateByMonth VatMode.with_vat [c7Order]) =
      (calculateSummary VatMode.with_vat [c7Order]).totalEUR :=
  (aggregate_reconciles_summary VatMode.with_vat [c7Order]).2
    (by
      intro o ho
      rw [List.mem_singleton] at ho
      subst ho
      exact ⟨fun hc => absurd hc (by decide), fun _ => Or.inr (Or.inr rfl)⟩)

theorem planCZRow_percent (vm : VatMode) (orders : List Order) (month : String) :
    (planCZRow vm orders month).percent =
      if (planCZRow vm orders month).plan > 0 then
        (planCZRow vm orders month).actual / (planCZRow vm orders month).plan * 100
      else 0 :=
  rfl

theorem planCZTotals_percent (vm : VatMode) (orders : List Order) :
    (planCZTotals vm orders).percent =
      if (planCZTotals vm orders).plan > 0 then
        (planCZTotals vm orders).actual / (planCZTotals vm orders).plan * 100
      else 0 :=
  rfl

/-- Claim C2 is false as stated: a record collection containing a credit note
(negative total) makes `actual`, and hence `percent`, negative. -/
theorem plan_percent_negative :
    (planCZRow VatMode.with_vat [negativeOrder] "2025-01").percent < 0 := by
  have h : (planCZRow VatMode.with_vat [negativeOrder] "2025-01").percent =
      ((0 : ℚ) + (-1000) + 0 + 0) / 1405070 * 100 := by
    show (if (1405070 : ℚ) > 0 then ((0 : ℚ) + (-1000) + 0 + 0) / 1405070 * 100 else 0) = _
    rw [if_pos (by norm_num)]
  rw [h]
  norm_num

/-- Claim C2 (amended): in the Plan Comparator (per-month rows and the CELKEM
row alike), `percent = actual / plan * 100` when `plan > 0` and `percent = 0`
when `plan = 0` (no division fault), and `percent` is nonnegative whenever
`actual` is nonnegative; with a negative `actual` (credit notes) it can be
negative. -/
theorem plan_percent_spec (vm : VatMode) (orders : List Order) (month : String) :
    ((planCZRow vm orders month).plan > 0 →
      (planCZRow vm orders month).percent =
        (planCZRow vm orders month).actual / (planCZRow vm orders month).plan * 100) ∧
    ((planCZRow vm orders month).plan = 0 → (planCZRow vm orders month).percent = 0) ∧
    (0 ≤ (planCZRow vm orders month).actual → 0 ≤ (planCZRow vm orders month).percent) ∧
    ((planCZTotals vm orders).plan > 0 →
      (planCZTotals vm orders).percent =
        (planCZTotals vm orders).actual / (planCZTotals vm orders).plan * 100) ∧
    ((planCZTotals vm orders).plan = 0 → (planCZTotals vm orders).percent = 0) ∧
    (0 ≤ (planCZTotals vm orders).actual → 0 ≤ (planCZTotals vm orders).percent) := by
  refine ⟨?_, ?_, ?_, ?_, ?_, ?_⟩
  · intro h
    rw [planCZRow_percent, if_pos h]
  · intro h
    rw [planCZRow_percent, if_neg (by rw [h]; exact lt_irrefl 0)]
  · intro h
    rw [planCZRow_percent]
    split_ifs with hp
    · exact mul_nonneg (div_nonneg h (le_of_lt hp)) (by norm_num)
    · exact le_refl 0
  · intro h
    rw [planCZTotals_percent, if_pos h]
  · intro h
    rw [planCZTotals_percent, if_neg (by rw [h]; exact lt_irrefl 0)]
  · intro h
    rw [planCZTotals_percent]
    split_ifs with hp
    · exact mul_nonneg (div_nonneg h (le_of_lt hp)) (by norm_num)
    · exact le_refl 0

/-- Witness for C2 on the empty collection: January's plan is positive, the
lookup-miss month "none" has plan 0, and all percents are nonnegative. -/
theorem plan_percent_spec_witness :
    (planCZRow VatMode.with_vat [] "2025-01").percent =
      (planCZRow VatMode.with_vat [] "2025-01").actual /
        (planCZRow VatMode.with_vat [] "2025-01").plan * 100 ∧
    (planCZRow VatMode.with_vat [] "none").percent = 0 ∧
    0 ≤ (planCZRow VatMode.with_vat [] "2025-01").percent ∧
    0 ≤ (planCZTotals VatMode.with_vat []).percent :=
  ⟨(plan_percent_spec VatMode.with_vat [] "2025-01").1
      (by show (0 : ℚ) < 1405070; norm_num),
   (plan_percent_spec VatMode.with_vat [] "none").2.1 (by show (0 : ℚ) = 0; rfl),
   (plan_percent_spec VatMode.with_vat [] "2025-01").2.2.1
      (by show (0 : ℚ) ≤ 0; norm_num),
   (plan_percent_spec VatMode.with_vat [] "2025-01").2.2.2.2.2
      (by
        show (0 : ℚ) ≤ (planMonths.map fun m => (planCZRow VatMode.with_vat [] m).actual).sum
        norm_num [planMonths, keysOf, planData, planCZRow, aggregateByMonth, groupFold,
          lookupK])⟩

/-- Claim C7: the example scenario.  For the single VAT-inclusive B2B CZK
order of 2025-03-15 for 10000 CZK attributed to Karolina,
`aggregateB2BBySalesperson` yields month "2025-03" with `Karolina = 10000`
and `total = 10000`, and the per-salesperson Plan Comparator against
`planData["2025-03"].karolina = 980483` yields a percent within
[1.01, 1.03] (≈ 1.02 %). -/
theorem example_scenario :
    lookupK (aggregateB2BBySalesperson VatMode.with_vat [c7Order]) "2025-03" =
      some c7Month ∧
    lookupKD c7Month.entries "Karolina" 0 = 10000 ∧
    c7Month.total = 10000 ∧
    101 / 100 ≤ planB2BKarolinaPercent VatMode.with_vat [c7Order] "2025-03" ∧
    planB2BKarolinaPercent VatMode.with_vat [c7Order] "2025-03" ≤ 103 / 100 := by
  have hp : planB2BKarolinaPercent VatMode.with_vat [c7Order] "2025-03" =
      ((0 : ℚ) + 10000) / 980483 * 100 := by
    show (if (980483 : ℚ) > 0 then ((0 : ℚ) + 10000) / 980483 * 100 else 0) = _
    rw [if_pos (by norm_num)]
  refine ⟨?_, rfl, rfl, ?_, ?_⟩
  · rw [aggregateB2B_c7_eval]
    rfl
  · rw [hp]
    norm_num
  · rw [hp]
    norm_num

theorem sublist_pair_or {γ : Type*} (l : List γ) (a b : γ) (ha : a ∈ l) (hb : b ∈ l)
    (hab : a ≠ b) : [a, b] <+ l ∨ [b, a] <+ l := by
  induction l with
  | nil => cases ha
  | cons c t ih =>
    rcases List.mem_cons.mp ha with rfl | ha'
    · rcases List.mem_cons.mp hb with rfl | hb'
      · exact absurd rfl hab
      · exact Or.inl ((List.singleton_sublist.mpr hb').cons₂ a)
    · rcases List.mem_cons.mp hb with rfl | hb'
      · exact Or.inr ((List.singleton_sublist.mpr ha').cons₂ b)
      · rcases ih ha' hb' with h | h
        · exact Or.inl (h.cons c)
        · exact Or.inr (h.cons c)

theorem not_sublist_pair_both {γ : Type*} : ∀ (l : List γ), l.Nodup → ∀ a b : γ,
    [a, b] <+ l → [b, a] <+ l → False
  | [], _, a, _, h1, _ => by cases h1
  | c :: t, hnd, a, b, h1, h2 => by
    rw [List.nodup_cons] at hnd
    cases h1 with
    | cons _ h1' =>
      cases h2 with
      | cons _ h2' => exact not_sublist_pair_both t hnd.2 a b h1' h2'
      | cons₂ _ h2' => exact hnd.1 (h1'.subset (by simp))
    | cons₂ _ h1' =>
      cases h2 with
      | cons _ h2' => exact hnd.1 (h2'.subset (by simp))
      | cons₂ _ h2' => exact hnd.1 (h1'.subset (by simp))

theorem take_mergeSort_stable {γ : Type*} (f : γ → ℚ) (le : γ → γ → Bool)
    (hle : ∀ a b, le a b = decide (f b ≤ f a))
    (g : List γ) (hnd : g.Nodup) (n : Nat) (a b : γ)
    (h : [a, b] <+ (g.mergeSort le).take n) (heq : f a = f b) : [a, b] <+ g := by
  have htrans : ∀ x y z, le x y → le y z → le x z := by
    intro x y z h1 h2
    rw [hle] at h1 h2 ⊢
    simp only [decide_eq_true_eq] at h1 h2 ⊢
    exact le_trans h2 h1
  have htotal : ∀ x y, le x y || le y x := by
    intro x y
    rw [hle, hle]
    simp only [Bool.or_eq_true, decide_eq_true_eq]
    exact le_total (f y) (f x)
  have hms : [a, b] <+ g.mergeSort le := h.trans (List.take_sublist n _)
  have hndms : (g.mergeSort le).Nodup := (List.mergeSort_perm g le).nodup_iff.mpr hnd
  have hab : a ≠ b := by
    rintro rfl
    have h2 := hms.nodup hndms
    simp at h2
  have ha : a ∈ g := List.mem_mergeSort.mp (hms.subset (by simp))
  have hb : b ∈ g := List.mem_mergeSort.mp (hms.subset (by simp))
  rcases sublist_pair_or g a b ha hb hab with hok | hbad
  · exact hok
  · exfalso
    have hba : le b a := by
      rw [hle]
      simp [heq]
    have hms2 : [b, a] <+ g.mergeSort le :=
      List.pair_sublist_mergeSort htrans htotal hba hbad
    exact not_sublist_pair_both _ hndms a b hms hms2

theorem pairwise_take_mergeSort {γ : Type*} (f : γ → ℚ) (le : γ → γ → Bool)
    (hle : ∀ a b, le a b = decide (f b ≤ f a)) (g : List γ) (n : Nat) :
    ((g.mergeSort le).take n).Pairwise (fun a b => f b ≤ f a) := by
  have htrans : ∀ x y z, le x y → le y z → le x z := by
    intro x y z h1 h2
    rw [hle] at h1 h2 ⊢
    simp only [decide_eq_true_eq] at h1 h2 ⊢
    exact le_trans h2 h1
  have htotal : ∀ x y, le x y || le y x := by
    intro x y
    rw [hle, hle]
    simp only [Bool.or_eq_true, decide_eq_true_eq]
    exact le_total (f y) (f x)
  have hs := List.sorted_mergeSort htrans htotal g
  have hp := List.Pairwise.sublist (List.take_sublist n (g.mergeSort le)) hs
  exact hp.imp fun hxy => of_decide_eq_true ((hle _ _) ▸ hxy)

theorem nodup_groupCustomers (vm : VatMode) (orders : List Order) :
    (groupCustomers vm orders).Nodup := by
  have h := nodup_keysOf_groupFold customerKey (addOrderToCustomer vm)
    (fun _ => ({} : CustAgg)) orders
  rw [keysOf] at h
  exact h.of_map _

theorem nodup_groupProducts (vm : VatMode) (items : List Item) :
    (groupProducts vm items).Nodup := by
  have h := nodup_keysOf_groupFold productKey (addItemToProduct vm) initProdAgg items
  rw [keysOf] at h
  exact h.of_map _

/-- Claim C8: the top-customers and top-products reducers return at most 10
entries, sorted descending by accumulated CZK total; entries with equal
totals keep the encounter order of the underlying grouping (stable sort);
orders without a company group under "Neznámý" and items without a product
code are keyed by product name. -/
theorem topN_spec (vm : VatMode) (orders : List Order) (items : List Item) :
    (topCustomers vm orders).length ≤ 10 ∧
    (topProducts vm items).length ≤ 10 ∧
    (topCustomers vm orders).Pairwise (fun a b => b.2.total ≤ a.2.total) ∧
    (topProducts vm items).Pairwise (fun a b => b.2.total ≤ a.2.total) ∧
    (∀ a b, [a, b] <+ topCustomers vm orders → a.2.total = b.2.total →
      [a, b] <+ groupCustomers vm orders) ∧
    (∀ a b, [a, b] <+ topProducts vm items → a.2.total = b.2.total →
      [a, b] <+ groupProducts vm items) ∧
    (∀ o : Order, o.company = none → customerKey o = "Neznámý") ∧
    (∀ it : Item, it.product_code = none → productKey it = it.product_name) := by
  refine ⟨?_, ?_, ?_, ?_, ?_, ?_, ?_, ?_⟩
  · exact List.length_take_le 10 _
  · exact List.length_take_le 10 _
  · exact pairwise_take_mergeSort (fun p : String × CustAgg => p.2.total) custTotalDesc
      (fun _ _ => rfl) _ 10
  · exact pairwise_take_mergeSort (fun p : String × ProdAgg => p.2.total) prodTotalDesc
      (fun _ _ => rfl) _ 10
  · intro a b h heq
    exact take_mergeSort_stable (fun p : String × CustAgg => p.2.total) custTotalDesc
      (fun _ _ => rfl) _ (nodup_groupCustomers vm orders) 10 a b h heq
  · intro a b h heq
    exact take_mergeSort_stable (fun p : String × ProdAgg => p.2.total) prodTotalDesc
      (fun _ _ => rfl) _ (nodup_groupProducts vm items) 10 a b h heq
  · intro o h
    simp [customerKey, h]
  · intro it h
    simp [productKey, h]

theorem groupCustomers_tie_eval :
    groupCustomers VatMode.with_vat [tieOrderA, tieOrderB] =
      [("Alpha", tieAgg), ("Beta", tieAgg)] := by
  show [("Alpha", ({ count := 0 + 1, total := (0 : ℚ) + 100 } : CustAgg)),
        ("Beta", ({ count := 0 + 1, total := (0 : ℚ) + 100 } : CustAgg))] = _
  norm_num [tieAgg]

theorem topCustomers_tie_eval :
    topCustomers VatMode.with_vat [tieOrderA, tieOrderB] =
      [("Alpha", tieAgg), ("Beta", tieAgg)] := by
  unfold topCustomers
  rw [groupCustomers_tie_eval]
  have hpair : List.Pairwise (fun x y => custTotalDesc x y)
      [("Alpha", tieAgg), ("Beta", tieAgg)] := by
    refine List.Pairwise.cons ?_ (List.Pairwise.cons (by simp) List.Pairwise.nil)
    intro y hy
    rw [List.mem_singleton] at hy
    subst hy
    decide
  rw [List.mergeSort_of_sorted hpair]
  rfl

theorem groupProducts_tie_eval :
    groupProducts VatMode.with_vat [tieItemA, tieItemB] =
      [("P1", tieProdA), ("P2", tieProdB)] := by
  show [("P1", ({ code := some "P1", name := "Prod One", quantity := (0 : ℚ) + 1,
                  total := (0 : ℚ) + 100 } : ProdAgg)),
        ("P2", ({ code := some "P2", name := "Prod Two", quantity := (0 : ℚ) + 1,
                  total := (0 : ℚ) + 100 } : ProdAgg))] = _
  norm_num [tieProdA, tieProdB]

theorem topProducts_tie_eval :
    topProducts VatMode.with_vat [tieItemA, tieItemB] =
      [("P1", tieProdA), ("P2", tieProdB)] := by
  unfold topProducts
  rw [groupProducts_tie_eval]
  have hpair : List.Pairwise (fun x y => prodTotalDesc x y)
      [("P1", tieProdA), ("P2", tieProdB)] := by
    refine List.Pairwise.cons ?_ (List.Pairwise.cons (by simp) List.Pairwise.nil)
    intro y hy
    rw [List.mem_singleton] at hy
    subst hy
    decide
  rw [List.mergeSort_of_sorted hpair]
  rfl

/-- Witness for C8: a two-way tie keeps encounter order, and the default
keys fire on records with missing company / product code. -/
theorem topN_spec_witness :
    [("Alpha", tieAgg), ("Beta", tieAgg)] <+
      groupCustomers VatMode.with_vat [tieOrderA, tieOrderB] ∧
    [("P1", tieProdA), ("P2", tieProdB)] <+
      groupProducts VatMode.with_vat [tieItemA, tieItemB] ∧
    customerKey { date := "2025-01-01" } = "Neznámý" ∧
    productKey { date := "2025-01-01", product_name := "Generic" } = "Generic" :=
  ⟨(topN_spec VatMode.with_vat [tieOrderA, tieOrderB] []).2.2.2.2.1 _ _
      (by rw [topCustomers_tie_eval]) rfl,
   (topN_spec VatMode.with_vat [] [tieItemA, tieItemB]).2.2.2.2.2.1 _ _
      (by rw [topProducts_tie_eval]) rfl,
   (topN_spec VatMode.with_vat [] []).2.2.2.2.2.2.1 _ rfl,
   (topN_spec VatMode.with_vat [] []).2.2.2.2.2.2.2 _ rfl⟩

/-- Claim C5: the Filter Engine is idempotent: filtering an already-filtered
collection with the same criteria returns it unchanged, both for the
order/invoice filter and for the line-item filter. -/
theorem filter_idempotent (c : Criteria) (R : List Order) (I : List Item) :
    getFilteredOrders c (getFilteredOrders c R) = getFilteredOrders c R ∧
    getFilteredItems c (getFilteredItems c I) = getFilteredItems c I := by
  constructor <;>
    simp [getFilteredOrders, getFilteredItems, List.filter_filter]

/-- Claim C6: the line-item filter never reads the payment-type or city criteria:
two criteria agreeing on month, market, channel and salesperson produce
identical line-item filter output. -/
theorem items_ignore_payment_city (c₁ c₂ : Criteria) (I : List Item)
    (hmon : c₁.month = c₂.month) (hmar : c₁.market = c₂.market)
    (hch : c₁.channel = c₂.channel) (hsp : c₁.salesperson = c₂.salesperson) :
    getFilteredItems c₁ I = getFilteredItems c₂ I := by
  obtain ⟨m₁, k₁, ch₁, s₁, p₁, ci₁⟩ := c₁
  obtain ⟨m₂, k₂, ch₂, s₂, p₂, ci₂⟩ := c₂
  simp only at hmon hmar hch hsp
  subst hmon hmar hch hsp
  rfl

/-- Witness for C6 at concrete criteria differing only in payment and city. -/
theorem items_ignore_payment_city_witness :
    getFilteredItems { payment := "Karta", city := "Praha" } [sampleItem] =
      getFilteredItems {} [sampleItem] :=
  items_ignore_payment_city _ _ _ rfl rfl rfl rfl

/-- Claim C3: `getDaysOverdue` returns 0 for paid invoices, for invoices without a
due date, and when the ceiling of the day difference is not positive;
otherwise it returns that ceiling.  `getOverdueCategory` maps 0 to "ok",
1..15 to "warning", 16..30 and 31..90 to "danger", and over 90 to
"critical". -/
theorem overdue_spec :
    (∀ (today : Int) (inv : Order), inv.is_paid = true → getDaysOverdue today inv = 0) ∧
    (∀ (today : Int) (inv : Order), inv.date_due = none → getDaysOverdue today inv = 0) ∧
    (∀ (today : Int) (inv : Order) (due : Int), inv.is_paid = false → inv.date_due = some due →
      ⌈((today - due : Int) : ℚ) / (1000 * 60 * 60 * 24)⌉ ≤ 0 → getDaysOverdue today inv = 0) ∧
    (∀ (today : Int) (inv : Order) (due : Int), inv.is_paid = false → inv.date_due = some due →
      0 < ⌈((today - due : Int) : ℚ) / (1000 * 60 * 60 * 24)⌉ →
      getDaysOverdue today inv = ⌈((today - due : Int) : ℚ) / (1000 * 60 * 60 * 24)⌉) ∧
    (∀ d : Int,
      getOverdueCategory 0 = "ok" ∧
      (1 ≤ d → d ≤ 15 → getOverdueCategory d = "warning") ∧
      (16 ≤ d → d ≤ 30 → getOverdueCategory d = "danger") ∧
      (31 ≤ d → d ≤ 90 → getOverdueCategory d = "danger") ∧
      (90 < d → getOverdueCategory d = "critical")) := by
  refine ⟨?_, ?_, ?_, ?_, ?_⟩
  · intro today inv h
    simp [getDaysOverdue, h]
  · intro today inv h
    unfold getDaysOverdue
    rw [h]
    split <;> rfl
  · intro today inv due hp hd hceil
    unfold getDaysOverdue
    rw [hp, hd]
    simp only [Bool.false_eq_true, if_false]
    split_ifs with h <;> omega
  · intro today inv due hp hd hceil
    unfold getDaysOverdue
    rw [hp, hd]
    simp only [Bool.false_eq_true, if_false]
    split_ifs with h <;> omega
  · intro d
    refine ⟨rfl, ?_, ?_, ?_, ?_⟩ <;> intros <;> unfold getOverdueCategory <;> split_ifs <;>
      first | rfl | omega

/-- Witness for C3: a paid invoice yields 0; an unpaid invoice one day past
due yields 1 day overdue; the category boundaries at 15, 16, 90, 91. -/
theorem overdue_spec_witness :
    getDaysOverdue 0 { sampleDueInvoice with is_paid := true } = 0 ∧
    getDaysOverdue 86400000 sampleDueInvoice =
      ⌈((86400000 - 0 : Int) : ℚ) / (1000 * 60 * 60 * 24)⌉ ∧
    getOverdueCategory 15 = "warning" ∧
    getOverdueCategory 16 = "danger" ∧
    getOverdueCategory 90 = "danger" ∧
    getOverdueCategory 91 = "critical" :=
  ⟨overdue_spec.1 0 _ rfl,
   overdue_spec.2.2.2.1 86400000 sampleDueInvoice 0 rfl rfl (by norm_num),
   (overdue_spec.2.2.2.2 15).2.1 (by norm_num) (by norm_num),
   (overdue_spec.2.2.2.2 16).2.2.1 (by norm_num) (by norm_num),
   (overdue_spec.2.2.2.2 90).2.2.2.1 (by norm_num) (by norm_num),
   (overdue_spec.2.2.2.2 91).2.2.2.2 (by norm_num)⟩

/-- Claim C4: `getStockStatus` maps -1 to "no_sales", other values below 30 to
"critical", [30,60) to "low", [60,120] to "ok", above 120 to "high",
with the stated boundary values. -/
theorem stock_status_spec :
    getStockStatus (-1) = "no_sales" ∧
    (∀ d : ℚ, d ≠ -1 → d < 30 → getStockStatus d = "critical") ∧
    (∀ d : ℚ, 30 ≤ d → d < 60 → getStockStatus d = "low") ∧
    (∀ d : ℚ, 60 ≤ d → d ≤ 120 → getStockStatus d = "ok") ∧
    (∀ d : ℚ, 120 < d → getStockStatus d = "high") ∧
    getStockStatus 29 = "critical" ∧ getStockStatus 30 = "low" ∧
    getStockStatus 59 = "low" ∧ getStockStatus 60 = "ok" ∧
    getStockStatus 120 = "ok" ∧ getStockStatus 121 = "high" := by
  refine ⟨?_, ?_, ?_, ?_, ?_, ?_, ?_, ?_, ?_, ?_, ?_⟩
  · rfl
  · intro d h1 h2
    unfold getStockStatus
    split_ifs <;> first | rfl | (exfalso; tauto) | (exfalso; linarith)
  · intro d h1 h2
    unfold getStockStatus
    split_ifs <;> first | rfl | (exfalso; linarith) | (exfalso; simp_all; linarith)
  · intro d h1 h2
    unfold getStockStatus
    split_ifs <;> first | rfl | (exfalso; linarith) | (exfalso; simp_all; linarith)
  · intro d h1
    unfold getStockStatus
    split_ifs <;> first | rfl | (exfalso; linarith) | (exfalso; simp_all; linarith)
  all_goals norm_num [getStockStatus]

/-- Witness for C4: instantiating the quantified tiers at 25, 45, 100, 200. -/
theorem stock_status_spec_witness :
    getStockStatus 25 = "critical" ∧ getStockStatus 45 = "low" ∧
    getStockStatus 100 = "ok" ∧ getStockStatus 200 = "high" :=
  ⟨stock_status_spec.2.1 25 (by norm_num) (by norm_num),
   stock_status_spec.2.2.1 45 (by norm_num) (by norm_num),
   stock_status_spec.2.2.2.1 100 (by norm_num) (by norm_num),
   stock_status_spec.2.2.2.2.1 200 (by norm_num)⟩

end Vitar
